import Mathlib

/-!
# Verification of the sqlstore session/transaction manager

Shallow embedding of `pkg/services/sqlstore` session handling
(`startSessionOrUseExisting`, `WithDbSession` / `withDbSession`,
`WithNewDbSession`, `retryOnLocks`, `PublishAfterCommit`, `InsertId`)
from the Grafana source file given in `src/unnamed/part_000`.

Modelling conventions:
* Go errors are the inductive `GoError`; `errors.As` unwrapping of a
  `sqlite3.Error` is `GoError.asSqliteError`, which walks the `%w` wrap
  chain.
* The xorm session handle is `XormSession`, recording which engine made
  it, the context it is bound to (`Session.Context(ctx)` rebinds it),
  whether `Begin` has been run, and whether `Close` has been run.
* A Go `context.Context` is `Context`: an identity plus the value stored
  under `ContextSessionKey` (the context session registry), modelled as
  an optional `DBSession`.
* Mutation through the `*DBSession` pointer becomes explicit state
  passing: a callback maps the session state to a new session state plus
  an optional error; logging calls are side-effect free and dropped.
* The event payloads (`interface` values in Go) are a type parameter `α`.
-/

set_option autoImplicit false

namespace Sqlstore

/-- Code field of a `sqlite3.Error` (`sqlite3.ErrLocked`, `sqlite3.ErrBusy`,
or any other sqlite error number). -/
inductive SqliteErrorCode where
  | errLocked
  | errBusy
  | otherCode (n : Nat)
  deriving DecidableEq, Repr

/-- Go error values reachable in this file: a `sqlite3.Error` with its code,
the result of `ErrMaximumRetriesReached.Errorf ("retry %d: %w", retry, err)`
(which records the attempt number and wraps the inner error), the error the
external retry driver returns when it gives up on its own, and opaque other
errors (tagged by a number). -/
inductive GoError where
  | sqlite (code : SqliteErrorCode)
  | maxRetriesReached (retry : Nat) (inner : GoError)
  | retryerGaveUp
  | simple (tag : Nat)
  deriving DecidableEq, Repr

/-- `errors.As (err, &sqlError)` for `sqlError : sqlite3.Error`: find the
first sqlite error in the `%w` wrap chain, if any. -/
def GoError.asSqliteError : GoError → Option SqliteErrorCode
  | .sqlite c => some c
  | .maxRetriesReached _ inner => inner.asSqliteError
  | .retryerGaveUp => none
  | .simple _ => none

/-- The guard in `retryOnLocks`:
`errors.As(err, &sqlError) && (sqlError.Code == sqlite3.ErrLocked || sqlError.Code == sqlite3.ErrBusy)`. -/
def isLockedOrBusySqliteError (err : GoError) : Bool :=
  match err.asSqliteError with
  | some c => c = SqliteErrorCode.errLocked || c = SqliteErrorCode.errBusy
  | none => false

/-- The `*xorm.Session` handle inside a `DBSession`: which engine created it,
the context it is currently bound to (`nil` until `.Context(ctx)` is called),
whether a transaction has been begun on it, whether it has been closed, and
the outcome `Begin` would have (copied from the engine's state at
`NewSession` time, modelling the database's disposition). -/
structure XormSession where
  engineId : Nat
  ctxId : Option Nat
  tranBegun : Bool
  closed : Bool
  beginErr : Option GoError
  deriving DecidableEq, Repr

/-- `sess.Context(ctx)` rebinds the handle to the given context and changes
nothing else. -/
def XormSession.Context (s : XormSession) (ctxId : Nat) : XormSession :=
  { s with ctxId := some ctxId }

/-- `sess.Begin()`: fails with the session's predetermined begin error, or
marks a transaction as begun. -/
def XormSession.Begin (s : XormSession) : Except GoError XormSession :=
  match s.beginErr with
  | some e => Except.error e
  | none => Except.ok { s with tranBegun := true }

/-- `sess.Close()` on the underlying handle. -/
def XormSession.CloseHandle (s : XormSession) : XormSession :=
  { s with closed := true }

/-- The `*xorm.Engine`: an identity and the outcome `Begin` will have on
sessions it creates. -/
structure Engine where
  id : Nat
  beginErr : Option GoError
  deriving DecidableEq, Repr

/-- `engine.NewSession()`: a fresh, unbound, transactionless, open handle. -/
def Engine.NewSession (e : Engine) : XormSession :=
  { engineId := e.id, ctxId := none, tranBegun := false, closed := false,
    beginErr := e.beginErr }

/-- `DBSession` from the source: the embedded `*xorm.Session`, the
`transactionOpen` flag, and the queued post-commit `events` (payload type
`α`, `interface` values in Go). -/
structure DBSession (α : Type) where
  Session : XormSession
  transactionOpen : Bool
  events : List α
  deriving DecidableEq, Repr

/-- `sess.Begin()` on a `DBSession` (promoted from the embedded
`xorm.Session`; in Go it mutates the session in place). -/
def DBSession.Begin {α : Type} (sess : DBSession α) : Except GoError (DBSession α) :=
  match sess.Session.Begin with
  | Except.error e => Except.error e
  | Except.ok s => Except.ok { sess with Session := s }

/-- `sess.Close()` on a `DBSession` (closes the embedded handle). -/
def DBSession.Close {α : Type} (sess : DBSession α) : DBSession α :=
  { sess with Session := sess.Session.CloseHandle }

/-- `func (sess *DBSession) PublishAfterCommit(msg interface)`:
`sess.events = append(sess.events, msg)`. -/
def DBSession.PublishAfterCommit {α : Type} (sess : DBSession α) (msg : α) : DBSession α :=
  { sess with events := sess.events ++ [msg] }

/-- Lowercase `publishAfterCommit` from the source; same body. -/
def DBSession.publishAfterCommit {α : Type} (sess : DBSession α) (msg : α) : DBSession α :=
  { sess with events := sess.events ++ [msg] }

/-- A Go `context.Context` as this file observes it: an identity (used by
`Session.Context`) and the value registered under `ContextSessionKey`
(the context session registry), which is either absent or a `*DBSession`. -/
structure Context (α : Type) where
  id : Nat
  sessionValue : Option (DBSession α)
  deriving DecidableEq, Repr

/-- `DBTransactionFunc` from the source: `func(sess *DBSession) error`.
The in-place mutation of `*DBSession` is explicit: the callback returns the
updated session state alongside the optional error. -/
def DBTransactionFunc (α : Type) : Type :=
  DBSession α → DBSession α × Option GoError

/-- `startSessionOrUseExisting(ctx, engine, beginTran)`: if the context
carries a `*DBSession` under `ContextSessionKey`, rebind its handle to the
current context and return it with `isNewlyCreated = false`; otherwise make
a new `DBSession` (with `transactionOpen = beginTran`), `Begin` it when
`beginTran` (aborting on failure), bind its handle to the context, and
return it with `isNewlyCreated = true`. The debug logging of the source is
dropped. -/
def startSessionOrUseExisting {α : Type} (ctx : Context α) (engine : Engine)
    (beginTran : Bool) : Except GoError (DBSession α × Bool) :=
  match ctx.sessionValue with
  | some sess =>
    Except.ok ({ sess with Session := sess.Session.Context ctx.id }, false)
  | none =>
    let newSess : DBSession α :=
      { Session := engine.NewSession, transactionOpen := beginTran, events := [] }
    if beginTran then
      match newSess.Begin with
      | Except.error err => Except.error err
      | Except.ok begun =>
        Except.ok ({ begun with Session := begun.Session.Context ctx.id }, true)
    else
      Except.ok ({ newSess with Session := newSess.Session.Context ctx.id }, true)

/-- `retryer.RetrySignal` values returned by the retry body. -/
inductive RetrySignal where
  | FuncComplete
  | FuncFailure
  | FuncError
  deriving DecidableEq, Repr

/-- The mutable state captured by the `retryOnLocks` closure: the `retry`
attempt counter it increments on every call, and the session the callback
mutates. -/
structure RetryState (α : Type) where
  retry : Nat
  sess : DBSession α
  deriving DecidableEq, Repr

/-- The body of the closure returned by
`(ss *SQLStore) retryOnLocks(ctx, callback, sess, retry)`: increment the
captured `retry` counter, run the callback on the session, and classify the
outcome. A sqlite locked/busy error found by `errors.As` yields
`FuncError` with `ErrMaximumRetriesReached.Errorf ("retry %d: %w", retry, err)`
when `retry == QueryRetries`, and `FuncFailure` (retry) otherwise; any other
non-nil error yields `FuncError` with that error unchanged; nil yields
`FuncComplete`. The `ctx`-bound info logging of the source is dropped. -/
def retryOnLocks {α : Type} (queryRetries : Nat) (callback : DBTransactionFunc α)
    (st : RetryState α) : RetryState α × RetrySignal × Option GoError :=
  let retry := st.retry + 1
  match callback st.sess with
  | (sess, some err) =>
    if isLockedOrBusySqliteError err then
      if retry = queryRetries then
        (⟨retry, sess⟩, RetrySignal.FuncError,
          some (GoError.maxRetriesReached retry err))
      else
        (⟨retry, sess⟩, RetrySignal.FuncFailure, none)
    else
      (⟨retry, sess⟩, RetrySignal.FuncError, some err)
  | (sess, none) => (⟨retry, sess⟩, RetrySignal.FuncComplete, none)

/-- Modelled from the spec: the external retry driver
`retryer.Retry(body, maxRetries, minDelay, maxDelay)` from
`pkg/util/retryer`, which is not under `src/`. Per the spec (section 4.4)
it executes the body up to `maxRetries` times; per the source comment in
`retryOnLocks`, it "immediately returns the error (if there is one) without
checking the response"; a `FuncComplete` or `FuncError` response stops the
loop, and a `FuncFailure` response triggers a bounded backoff wait and then
another attempt while attempts remain. The backoff delays are waiting only
and do not affect the returned value, so they are not modelled; running out
of attempts on `FuncFailure` is the driver's own give-up error. The body is
stateful in Go (it is a closure), so it is passed the state `σ` explicitly.
The result also carries the final body state. -/
def retryerRetry {σ : Type} (body : σ → σ × RetrySignal × Option GoError) :
    Nat → σ → σ × Option GoError
  | 0, s => (s, some GoError.retryerGaveUp)
  | Nat.succ n, s =>
    match body s with
    | (s', _, some e) => (s', some e)
    | (s', RetrySignal.FuncComplete, none) => (s', none)
    | (s', RetrySignal.FuncError, none) => (s', none)
    | (s', RetrySignal.FuncFailure, none) => retryerRetry body n s'

/-- The session states reached by re-running the callback: after
`iterateCallback callback n sess` the callback has been applied `n` times
starting from `sess` (the session seen by attempt `n + 1`). -/
def iterateCallback {α : Type} (callback : DBTransactionFunc α) :
    Nat → DBSession α → DBSession α
  | 0, sess => sess
  | Nat.succ n, sess => iterateCallback callback n (callback sess).1

/-- The part of the database configuration this file reads. -/
structure DatabaseConfig where
  QueryRetries : Nat
  deriving DecidableEq, Repr

/-- The part of `SQLStore` this file reads: its engine and configuration. -/
structure SQLStore where
  engine : Engine
  dbCfg : DatabaseConfig
  deriving DecidableEq, Repr

/-- What a work-execution entry point did, observable in the model: the
error it returned, the final state of the session it ran on (after any
deferred `Close`; `none` when acquisition failed and no session existed),
and how many attempts the retry body made. -/
structure ExecOutcome (α : Type) where
  err : Option GoError
  finalSess : Option (DBSession α)
  attempts : Nat
  deriving DecidableEq, Repr

/-- `(ss *SQLStore) withDbSession(ctx, engine, callback)`: acquire a session
via `startSessionOrUseExisting` with `beginTran = false`; on acquisition
error return it; `defer sess.Close()` only if the session is newly created;
run the callback through `retryer.Retry(ss.retryOnLocks(...), QueryRetries,
10ms, 1s)` starting from `retry = 0`. -/
def SQLStore.withDbSession {α : Type} (ss : SQLStore) (ctx : Context α)
    (engine : Engine) (callback : DBTransactionFunc α) : ExecOutcome α :=
  match startSessionOrUseExisting ctx engine false with
  | Except.error e => { err := some e, finalSess := none, attempts := 0 }
  | Except.ok (sess, isNew) =>
    let (st, err) :=
      retryerRetry (retryOnLocks ss.dbCfg.QueryRetries callback)
        ss.dbCfg.QueryRetries ⟨0, sess⟩
    { err := err,
      finalSess := some (if isNew then st.sess.Close else st.sess),
      attempts := st.retry }

/-- `(ss *SQLStore) WithDbSession(ctx, callback)`: delegates to
`ss.withDbSession(ctx, ss.engine, callback)`. -/
def SQLStore.WithDbSession {α : Type} (ss : SQLStore) (ctx : Context α)
    (callback : DBTransactionFunc α) : ExecOutcome α :=
  ss.withDbSession ctx ss.engine callback

/-- `(ss *SQLStore) WithNewDbSession(ctx, callback)`: build a fresh
`DBSession` directly from `ss.engine.NewSession()` (the context session
registry is never consulted; in the source `ctx` reaches only the logging
inside `retryOnLocks`), `defer sess.Close()`, and run the callback through
the retry driver starting from `retry = 0`. -/
def SQLStore.WithNewDbSession {α : Type} (ss : SQLStore) (_ctx : Context α)
    (callback : DBTransactionFunc α) : ExecOutcome α :=
  let sess : DBSession α :=
    { Session := ss.engine.NewSession, transactionOpen := false, events := [] }
  let (st, err) :=
    retryerRetry (retryOnLocks ss.dbCfg.QueryRetries callback)
      ss.dbCfg.QueryRetries ⟨0, sess⟩
  { err := err, finalSess := some st.sess.Close, attempts := st.retry }

/-- The collaborators `InsertId` calls, as outcome functions (bean type `β`):
`Obj2Table` composes `getTypeName` with `sess.DB().Mapper.Obj2Table`;
`PreInsertId` and `PostInsertId` are the dialect hooks keyed by the table
name; `InsertOne` is the single-row insert, returning the generated id or
failing. -/
structure InsertEnv (β : Type) where
  Obj2Table : β → String
  PreInsertId : String → Option GoError
  InsertOne : β → Except GoError Int
  PostInsertId : String → Option GoError

/-- `(sess *DBSession) InsertId(bean)`: resolve the table name, run the
pre-insert hook (abort on error), insert the row (abort on error), run the
post-insert hook (abort on error), and return the generated id. The
persisted rows are threaded explicitly: `db` lists the rows present before
the call, and the first component of the result lists them after it (a
successful `InsertOne` appends the bean, and nothing later removes it).
Every abort returns `0` for the id, as `return 0, err` does. -/
def InsertId {β : Type} (env : InsertEnv β) (db : List β) (bean : β) :
    List β × Int × Option GoError :=
  let table := env.Obj2Table bean
  match env.PreInsertId table with
  | some e => (db, 0, some e)
  | none =>
    match env.InsertOne bean with
    | Except.error e => (db, 0, some e)
    | Except.ok id =>
      let inserted := db ++ [bean]
      match env.PostInsertId table with
      | some e => (inserted, 0, some e)
      | none => (inserted, id, none)

/-!
## Helper lemmas on the retry loop

One lemma per arm of `retryOnLocks`, each peeling one attempt off
`retryerRetry`. These are shared by several claims below.
-/

/-- One attempt whose callback error is lock contention, short of the last
allowed attempt: the driver sees `FuncFailure` and loops. -/
theorem retryerRetry_retryOnLocks_locked_step {α : Type} (q n : Nat)
    (cb : DBTransactionFunc α) (st : RetryState α) (s' : DBSession α)
    (e : GoError) (hcb : cb st.sess = (s', some e))
    (hl : isLockedOrBusySqliteError e = true) (hq : st.retry + 1 ≠ q) :
    retryerRetry (retryOnLocks q cb) (n + 1) st =
      retryerRetry (retryOnLocks q cb) n ⟨st.retry + 1, s'⟩ := by
  simp [retryerRetry, retryOnLocks, hcb, hl, hq]

/-- One attempt whose callback error is lock contention, at the last allowed
attempt: the closure wraps the error in `ErrMaximumRetriesReached` and the
driver returns it. -/
theorem retryerRetry_retryOnLocks_locked_last {α : Type} (q n : Nat)
    (cb : DBTransactionFunc α) (st : RetryState α) (s' : DBSession α)
    (e : GoError) (hcb : cb st.sess = (s', some e))
    (hl : isLockedOrBusySqliteError e = true) (hq : st.retry + 1 = q) :
    retryerRetry (retryOnLocks q cb) (n + 1) st =
      (⟨st.retry + 1, s'⟩, some (GoError.maxRetriesReached (st.retry + 1) e)) := by
  simp [retryerRetry, retryOnLocks, hcb, hl, hq]

/-- One attempt whose callback error is not lock contention: the driver
returns that error unchanged. -/
theorem retryerRetry_retryOnLocks_nonlock {α : Type} (q n : Nat)
    (cb : DBTransactionFunc α) (st : RetryState α) (s' : DBSession α)
    (e : GoError) (hcb : cb st.sess = (s', some e))
    (hl : isLockedOrBusySqliteError e = false) :
    retryerRetry (retryOnLocks q cb) (n + 1) st = (⟨st.retry + 1, s'⟩, some e) := by
  simp [retryerRetry, retryOnLocks, hcb, hl]

/-! ## Concrete objects used by the witnesses -/

/-- An engine whose `Begin` succeeds. -/
def sampleEngine : Engine := { id := 0, beginErr := none }

/-- A plain open session from `sampleEngine`. -/
def sampleSess : DBSession Nat :=
  { Session := sampleEngine.NewSession, transactionOpen := false, events := [] }

/-- A callback that reports `sqlite3.ErrLocked` on every attempt. -/
def lockedCallback : DBTransactionFunc Nat :=
  fun s => (s, some (GoError.sqlite SqliteErrorCode.errLocked))

/-- A callback that reports a non-contention error on every attempt. -/
def nonlockCallback : DBTransactionFunc Nat :=
  fun s => (s, some (GoError.simple 7))

/-! ## Claim theorems -/

/-- C1: with `QueryRetries = 5` and a callback that reports a sqlite
locked/busy error on every attempt, the retry executor makes exactly 5
attempts (the final attempt counter is 5) and returns
`ErrMaximumRetriesReached.Errorf ("retry %d: %w", 5, err5)`, wrapping the
5th underlying error (the callback's error at the session state after 4
attempts) and recording the attempt number 5. -/
theorem retry_executor_always_locked_qr5 {α : Type} (cb : DBTransactionFunc α)
    (sess : DBSession α)
    (h : ∀ s : DBSession α, ∃ e, (cb s).2 = some e ∧ isLockedOrBusySqliteError e = true) :
    retryerRetry (retryOnLocks 5 cb) 5 ⟨0, sess⟩ =
      (⟨5, (cb (iterateCallback cb 4 sess)).1⟩,
        ((cb (iterateCallback cb 4 sess)).2).map (GoError.maxRetriesReached 5)) := by
  obtain ⟨e1, he1, hl1⟩ := h sess
  obtain ⟨e2, he2, hl2⟩ := h (cb sess).1
  obtain ⟨e3, he3, hl3⟩ := h (cb (cb sess).1).1
  obtain ⟨e4, he4, hl4⟩ := h (cb (cb (cb sess).1).1).1
  obtain ⟨e5, he5, hl5⟩ := h (cb (cb (cb (cb sess).1).1).1).1
  have hcb1 : cb sess = ((cb sess).1, some e1) := by rw [← he1]
  have hcb2 : cb (cb sess).1 = ((cb (cb sess).1).1, some e2) := by rw [← he2]
  have hcb3 : cb (cb (cb sess).1).1 = ((cb (cb (cb sess).1).1).1, some e3) := by
    rw [← he3]
  have hcb4 : cb (cb (cb (cb sess).1).1).1 =
      ((cb (cb (cb (cb sess).1).1).1).1, some e4) := by rw [← he4]
  have hcb5 : cb (cb (cb (cb (cb sess).1).1).1).1 =
      ((cb (cb (cb (cb (cb sess).1).1).1).1).1, some e5) := by rw [← he5]
  have main : retryerRetry (retryOnLocks 5 cb) 5 ⟨0, sess⟩ =
      (⟨5, (cb (cb (cb (cb (cb sess).1).1).1).1).1⟩,
        some (GoError.maxRetriesReached 5 e5)) := by
    calc retryerRetry (retryOnLocks 5 cb) 5 ⟨0, sess⟩
        = retryerRetry (retryOnLocks 5 cb) 4 ⟨1, (cb sess).1⟩ :=
          retryerRetry_retryOnLocks_locked_step 5 4 cb ⟨0, sess⟩ _ e1 hcb1 hl1
            (by simp)
      _ = retryerRetry (retryOnLocks 5 cb) 3 ⟨2, (cb (cb sess).1).1⟩ :=
          retryerRetry_retryOnLocks_locked_step 5 3 cb ⟨1, (cb sess).1⟩ _ e2 hcb2
            hl2 (by simp)
      _ = retryerRetry (retryOnLocks 5 cb) 2 ⟨3, (cb (cb (cb sess).1).1).1⟩ :=
          retryerRetry_retryOnLocks_locked_step 5 2 cb ⟨2, (cb (cb sess).1).1⟩ _
            e3 hcb3 hl3 (by simp)
      _ = retryerRetry (retryOnLocks 5 cb) 1 ⟨4, (cb (cb (cb (cb sess).1).1).1).1⟩ :=
          retryerRetry_retryOnLocks_locked_step 5 1 cb ⟨3, (cb (cb (cb sess).1).1).1⟩
            _ e4 hcb4 hl4 (by simp)
      _ = (⟨5, (cb (cb (cb (cb (cb sess).1).1).1).1).1⟩,
            some (GoError.maxRetriesReached 5 e5)) :=
          retryerRetry_retryOnLocks_locked_last 5 0 cb
            ⟨4, (cb (cb (cb (cb sess).1).1).1).1⟩ _ e5 hcb5 hl5 (by simp)
  have hiter : iterateCallback cb 4 sess = (cb (cb (cb (cb sess).1).1).1).1 := rfl
  rw [main, hiter, he5]
  rfl

/-- Witness for C1: the always-locked callback at a concrete session. -/
theorem retry_executor_always_locked_qr5_witness :
    retryerRetry (retryOnLocks 5 lockedCallback) 5 ⟨0, sampleSess⟩ =
      (⟨5, sampleSess⟩,
        some (GoError.maxRetriesReached 5 (GoError.sqlite SqliteErrorCode.errLocked))) := by
  have h := retry_executor_always_locked_qr5 lockedCallback sampleSess
    (fun s => ⟨GoError.sqlite SqliteErrorCode.errLocked, rfl, rfl⟩)
  exact h

/-- C2: a callback error that is not sqlite lock contention stops the retry
executor after exactly 1 attempt (the final attempt counter is 1) with that
error returned unwrapped, for any positive configured retry count. -/
theorem retry_executor_nonlock_error_one_attempt {α : Type} (q n : Nat)
    (cb : DBTransactionFunc α) (sess : DBSession α) (e : GoError)
    (he : (cb sess).2 = some e) (hl : isLockedOrBusySqliteError e = false) :
    retryerRetry (retryOnLocks q cb) (n + 1) ⟨0, sess⟩ =
      (⟨1, (cb sess).1⟩, some e) := by
  have hcb : cb sess = ((cb sess).1, some e) := by rw [← he]
  exact retryerRetry_retryOnLocks_nonlock q n cb ⟨0, sess⟩ _ e hcb hl

/-- Witness for C2: a tagged non-sqlite error at a concrete session. -/
theorem retry_executor_nonlock_error_one_attempt_witness :
    retryerRetry (retryOnLocks 5 nonlockCallback) 5 ⟨0, sampleSess⟩ =
      (⟨1, sampleSess⟩, some (GoError.simple 7)) :=
  retry_executor_nonlock_error_one_attempt 5 4 nonlockCallback sampleSess
    (GoError.simple 7) rfl rfl

/-- A context that carries `sampleSess` in its session registry slot. -/
def ctxWithSess : Context Nat := { id := 3, sessionValue := some sampleSess }

/-- A context that carries no session. -/
def ctxFresh : Context Nat := { id := 4, sessionValue := none }

/-- An engine whose `Begin` fails. -/
def failingEngine : Engine := { id := 1, beginErr := some (GoError.simple 9) }

/-- A store over `sampleEngine` with `QueryRetries = 5`. -/
def sampleStore : SQLStore := { engine := sampleEngine, dbCfg := { QueryRetries := 5 } }

/-- C3: when the context carries a Session, acquisition returns exactly that
Session with `isNewlyCreated = false`, changed only by rebinding its
underlying handle to the current context — for any engine and any value of
the transaction-request flag, hence for the second and every later
acquisition in a context-derived call chain. -/
theorem startSessionOrUseExisting_reuses_context_session {α : Type}
    (ctx : Context α) (engine : Engine) (beginTran : Bool) (sess : DBSession α)
    (h : ctx.sessionValue = some sess) :
    startSessionOrUseExisting ctx engine beginTran =
      Except.ok ({ sess with Session := sess.Session.Context ctx.id }, false) := by
  simp [startSessionOrUseExisting, h]

/-- Witness for C3 at a concrete context carrying `sampleSess`. -/
theorem startSessionOrUseExisting_reuses_context_session_witness :
    startSessionOrUseExisting ctxWithSess sampleEngine true =
      Except.ok
        ({ sampleSess with Session := sampleSess.Session.Context ctxWithSess.id },
          false) :=
  startSessionOrUseExisting_reuses_context_session ctxWithSess sampleEngine true
    sampleSess rfl

/-- C4: on a context with no Session, acquisition reports
`isNewlyCreated = true`; if a transaction was requested and `Begin` fails,
it aborts with the underlying error and no Session; otherwise the returned
Session is freshly built from `engine.NewSession()` with
`transactionOpen = beginTran`, a begun transaction exactly when requested,
its handle bound to the current context, and an empty event queue. -/
theorem startSessionOrUseExisting_fresh_context {α : Type} (ctx : Context α)
    (engine : Engine) (beginTran : Bool) (h : ctx.sessionValue = none) :
    (∀ e, beginTran = true → engine.beginErr = some e →
        startSessionOrUseExisting ctx engine beginTran =
          (Except.error e : Except GoError (DBSession α × Bool))) ∧
    (beginTran = false ∨ engine.beginErr = none →
        startSessionOrUseExisting ctx engine beginTran =
          (Except.ok
            ({ Session :=
                { engineId := engine.id, ctxId := some ctx.id,
                  tranBegun := beginTran, closed := false,
                  beginErr := engine.beginErr },
               transactionOpen := beginTran, events := [] }, true) :
            Except GoError (DBSession α × Bool))) := by
  constructor
  · intro e hb he
    subst hb
    simp [startSessionOrUseExisting, h, DBSession.Begin, XormSession.Begin,
      Engine.NewSession, he]
  · intro hb
    cases beginTran with
    | false =>
      simp [startSessionOrUseExisting, h, Engine.NewSession, XormSession.Context]
    | true =>
      rcases hb with hb | hb
      · exact absurd hb (by simp)
      · simp [startSessionOrUseExisting, h, DBSession.Begin, XormSession.Begin,
          Engine.NewSession, XormSession.Context, hb]

/-- Witness for C4: a failing `Begin` aborts acquisition, and a succeeding
one yields a fresh context-bound Session with an open transaction. -/
theorem startSessionOrUseExisting_fresh_context_witness :
    startSessionOrUseExisting (ctxFresh : Context Nat) failingEngine true =
      Except.error (GoError.simple 9) ∧
    startSessionOrUseExisting (ctxFresh : Context Nat) sampleEngine true =
      Except.ok
        ({ Session :=
            { engineId := 0, ctxId := some 4, tranBegun := true,
              closed := false, beginErr := none },
           transactionOpen := true, events := [] }, true) :=
  ⟨(startSessionOrUseExisting_fresh_context ctxFresh failingEngine true rfl).1
      (GoError.simple 9) rfl rfl,
    (startSessionOrUseExisting_fresh_context ctxFresh sampleEngine true rfl).2
      (Or.inr rfl)⟩

/-- C10: when acquisition reuses the Session carried by the context, the
transaction-request flag is ignored: the result is the same as with
`beginTran = false`, no transaction is begun on the reused Session
(`tranBegun` unchanged), and its `transactionOpen` flag and pending-event
queue come back exactly as stored — in particular even when
`beginTran = true` and the stored Session has `transactionOpen = false`. -/
theorem startSessionOrUseExisting_reuse_ignores_beginTran {α : Type}
    (ctx : Context α) (engine : Engine) (beginTran : Bool) (sess : DBSession α)
    (h : ctx.sessionValue = some sess) :
    startSessionOrUseExisting ctx engine beginTran =
      startSessionOrUseExisting ctx engine false ∧
    startSessionOrUseExisting ctx engine beginTran =
      Except.ok ({ sess with Session := sess.Session.Context ctx.id }, false) ∧
    ({ sess with Session := sess.Session.Context ctx.id } : DBSession α).transactionOpen
        = sess.transactionOpen ∧
    ({ sess with Session := sess.Session.Context ctx.id } : DBSession α).events
        = sess.events ∧
    ({ sess with Session := sess.Session.Context ctx.id } : DBSession α).Session.tranBegun
        = sess.Session.tranBegun := by
  refine ⟨by simp [startSessionOrUseExisting, h],
    by simp [startSessionOrUseExisting, h], rfl, rfl, rfl⟩

/-- Witness for C10: reuse with `beginTran = true` of a stored Session whose
`transactionOpen` is `false`. -/
theorem startSessionOrUseExisting_reuse_ignores_beginTran_witness :
    startSessionOrUseExisting ctxWithSess sampleEngine true =
      startSessionOrUseExisting ctxWithSess sampleEngine false ∧
    startSessionOrUseExisting ctxWithSess sampleEngine true =
      Except.ok
        ({ sampleSess with Session := sampleSess.Session.Context ctxWithSess.id },
          false) ∧
    ({ sampleSess with Session := sampleSess.Session.Context ctxWithSess.id } :
        DBSession Nat).transactionOpen = sampleSess.transactionOpen ∧
    ({ sampleSess with Session := sampleSess.Session.Context ctxWithSess.id } :
        DBSession Nat).events = sampleSess.events ∧
    ({ sampleSess with Session := sampleSess.Session.Context ctxWithSess.id } :
        DBSession Nat).Session.tranBegun = sampleSess.Session.tranBegun :=
  startSessionOrUseExisting_reuse_ignores_beginTran ctxWithSess sampleEngine true
    sampleSess rfl

/-- C5: in `withDbSession` the Session is closed exactly when it was newly
created there. If the context carried a Session, the operation hands back
the session state exactly as the retry loop left it — no `Close` is applied
to it by this operation. If the Session was newly created, the operation's
final session is closed, whatever the retry loop returned (success or
error). -/
theorem withDbSession_closes_iff_new {α : Type} (ss : SQLStore) (ctx : Context α)
    (engine : Engine) (cb : DBTransactionFunc α) :
    (∀ sess : DBSession α, ctx.sessionValue = some sess →
      (ss.withDbSession ctx engine cb).finalSess =
        some ((retryerRetry (retryOnLocks ss.dbCfg.QueryRetries cb)
          ss.dbCfg.QueryRetries
          ⟨0, { sess with Session := sess.Session.Context ctx.id }⟩).1.sess)) ∧
    (ctx.sessionValue = none →
      Option.map (fun s : DBSession α => s.Session.closed)
        (ss.withDbSession ctx engine cb).finalSess = some true) := by
  constructor
  · intro sess h
    simp [SQLStore.withDbSession, startSessionOrUseExisting, h]
  · intro h
    simp [SQLStore.withDbSession, startSessionOrUseExisting, h,
      DBSession.Close, XormSession.CloseHandle]

/-- Witness for C5: a reused Session comes back from the loop unclosed by
the operation; a newly created one is closed. -/
theorem withDbSession_closes_iff_new_witness :
    (sampleStore.withDbSession ctxWithSess sampleEngine lockedCallback).finalSess =
      some ((retryerRetry (retryOnLocks sampleStore.dbCfg.QueryRetries lockedCallback)
        sampleStore.dbCfg.QueryRetries
        ⟨0, { sampleSess with
                Session := sampleSess.Session.Context ctxWithSess.id }⟩).1.sess) ∧
    Option.map (fun s : DBSession Nat => s.Session.closed)
      (sampleStore.withDbSession ctxFresh sampleEngine lockedCallback).finalSess =
        some true :=
  ⟨(withDbSession_closes_iff_new sampleStore ctxWithSess sampleEngine
      lockedCallback).1 sampleSess rfl,
    (withDbSession_closes_iff_new sampleStore ctxFresh sampleEngine
      lockedCallback).2 rfl⟩

/-- C6: `WithNewDbSession` gives the same outcome for every context (it
never consults the context session registry), its run is exactly the retry
executor applied to a fresh Session built from `engine.NewSession()` with
the final session closed afterwards, and its final session is closed on
every exit. -/
theorem WithNewDbSession_fresh_ignores_context {α : Type} (ss : SQLStore)
    (ctx ctx' : Context α) (cb : DBTransactionFunc α) :
    ss.WithNewDbSession ctx cb = ss.WithNewDbSession ctx' cb ∧
    ss.WithNewDbSession ctx cb =
      { err := (retryerRetry (retryOnLocks ss.dbCfg.QueryRetries cb)
            ss.dbCfg.QueryRetries
            ⟨0, { Session := ss.engine.NewSession, transactionOpen := false,
                  events := [] }⟩).2,
        finalSess := some ((retryerRetry (retryOnLocks ss.dbCfg.QueryRetries cb)
            ss.dbCfg.QueryRetries
            ⟨0, { Session := ss.engine.NewSession, transactionOpen := false,
                  events := [] }⟩).1.sess.Close),
        attempts := (retryerRetry (retryOnLocks ss.dbCfg.QueryRetries cb)
            ss.dbCfg.QueryRetries
            ⟨0, { Session := ss.engine.NewSession, transactionOpen := false,
                  events := [] }⟩).1.retry } ∧
    Option.map (fun s : DBSession α => s.Session.closed)
      (ss.WithNewDbSession ctx cb).finalSess = some true := by
  refine ⟨rfl, rfl, ?_⟩
  simp [SQLStore.WithNewDbSession, DBSession.Close, XormSession.CloseHandle]

/-- C7: `PublishAfterCommit` appends to the end of the pending-event queue:
two registrations are retrieved in registration order, and in general each
registration appends its value, leaving the previously queued prefix
unchanged. -/
theorem PublishAfterCommit_preserves_order {α : Type} (sess : DBSession α)
    (e₁ e₂ : α) :
    ((sess.PublishAfterCommit e₁).PublishAfterCommit e₂).events =
      sess.events ++ [e₁, e₂] ∧
    ∀ m : α, (sess.PublishAfterCommit m).events = sess.events ++ [m] := by
  constructor
  · simp [DBSession.PublishAfterCommit]
  · intro m
    rfl

/-- A backend whose insert succeeds with generated id 7 but whose
post-insert hook fails. -/
def envPostFail : InsertEnv Nat :=
  { Obj2Table := fun _ => "numbers",
    PreInsertId := fun _ => none,
    InsertOne := fun _ => Except.ok 7,
    PostInsertId := fun _ => some (GoError.simple 3) }

/-- A backend whose pre-insert hook fails. -/
def envPreFail : InsertEnv Nat :=
  { Obj2Table := fun _ => "numbers",
    PreInsertId := fun _ => some (GoError.simple 4),
    InsertOne := fun _ => Except.ok 7,
    PostInsertId := fun _ => none }

/-- C8 counterexample: with an insert that succeeds generating id 7 and a
post-insert hook that fails, `InsertId` persists the row and returns the
hook's error, but returns identifier 0 — not the generated identifier 7
that the claim says is returned to the caller. -/
theorem InsertId_post_hook_failure_counterexample :
    envPostFail.InsertOne 42 = Except.ok 7 ∧
    InsertId envPostFail [] 42 = ([42], 0, some (GoError.simple 3)) ∧
    (InsertId envPostFail [] 42).2.1 ≠ 7 := by
  refine ⟨rfl, rfl, ?_⟩
  decide

/-- C8 (amended): a pre-insert hook failure aborts with the hook's error
before any insert (rows unchanged); a post-insert hook failure after a
successful insert aborts with the hook's error while the row remains
persisted, but the generated identifier is discarded — `InsertId` returns 0
together with the hook's error. -/
theorem InsertId_hook_failures {β : Type} (env : InsertEnv β) (db : List β)
    (bean : β) :
    (∀ e, env.PreInsertId (env.Obj2Table bean) = some e →
        InsertId env db bean = (db, 0, some e)) ∧
    (∀ id e, env.PreInsertId (env.Obj2Table bean) = none →
        env.InsertOne bean = Except.ok id →
        env.PostInsertId (env.Obj2Table bean) = some e →
        InsertId env db bean = (db ++ [bean], 0, some e)) := by
  constructor
  · intro e he
    simp [InsertId, he]
  · intro id e h1 h2 h3
    simp [InsertId, h1, h2, h3]

/-- Witness for the amended C8: a failing pre-hook leaves the rows
untouched; a failing post-hook leaves the row persisted and the id zeroed. -/
theorem InsertId_hook_failures_witness :
    InsertId envPreFail [] 42 = ([], 0, some (GoError.simple 4)) ∧
    InsertId envPostFail [] 42 = ([42], 0, some (GoError.simple 3)) :=
  ⟨(InsertId_hook_failures envPreFail [] 42).1 (GoError.simple 4) rfl,
    (InsertId_hook_failures envPostFail [] 42).2 7 (GoError.simple 3) rfl rfl rfl⟩

end Sqlstore
